import Mathlib

/-!
Shallow embedding of the WebRTC negotiation orchestrator (`WebRTCService`)
of this repository, together with theorems settling the frozen claims.

Two variants of the service exist in the sources:
  * `src/unnamed/part_001` — the perfect-negotiation variant (politeness,
    `makingOffer` / `ignoreOffer`, pre-created audio/video transceivers,
    `replaceTrack`-based attach).  Its handlers are embedded below with the
    source's own names (`handleOffer`, `handleAnswer`, `handleIceCandidate`,
    `onNegotiationNeeded`, `createOffer`, `startLocalStream`,
    `recoverFromSDPError`, `sendChatMessage`, `initialize`, …).
  * `src/services/WebRTCService.ts` — the older variant whose duplicate
    offer/answer suppression is keyed on presence of a remote description.
    Its handlers are embedded with an `old` prefix (`oldHandleOffer`, …).

External media-engine calls (`getUserMedia`, `setRemoteDescription`,
`createAnswer`, `setLocalDescription`, `createOffer`, `addIceCandidate`,
socket connect) may succeed or fail; an `Engine` record of booleans plays
the role of this outcome oracle, so that `try`/`catch`/`finally` control
flow of the source is represented explicitly.  `allOk` is the oracle on
which every engine call succeeds.  Handlers return a `Res`: the new service
state, the list of envelopes emitted on the wire, the list of engine calls
performed (used to observe "the connection was closed", "an offer was
constructed while `makingOffer` was b", …), and whether the handler threw
to its caller.

JavaScript string comparison (`>` on UTF-16 code units) is modelled by
a lexicographic order on the character lists of the two strings
(`strLtChars`); JavaScript truthiness of a string
(`!!s`) is `s ≠ ""`, and a missing field is `Option.none`.
-/

/-- JavaScript truthiness of an optional string field: the field is present
and not the empty string. -/
def truthyS : Option String → Bool
  | none => false
  | some s => s ≠ ""

/-- An `RTCSessionDescription`-shaped payload: `type` and `sdp` fields, each
possibly missing. -/
structure RTCSdp where
  type : Option String
  sdp : Option String
deriving DecidableEq, Repr

/-- Inbound `offer` / `answer` signaling data: the `sdp` object and the
`sender` id, each possibly missing. -/
structure SignalData where
  sdp : Option RTCSdp
  sender : Option String
deriving DecidableEq, Repr

/-- Validation performed at the top of `handleOffer` / `handleAnswer`:
`!data.sdp || !data.sdp.type || !data.sdp.sdp` drops the envelope. -/
def sdpValid (d : SignalData) : Bool :=
  match d.sdp with
  | none => false
  | some x => truthyS x.type && truthyS x.sdp

/-- Lexicographic strict comparison of character lists, the model of
JavaScript's `<` on strings (code-unit lexicographic order). -/
def strLtChars : List Char → List Char → Bool
  | [], [] => false
  | [], _ :: _ => true
  | _ :: _, [] => false
  | a :: as, b :: bs => if a < b then true else if b < a then false else strLtChars as bs

/-- JavaScript's `a > b` on strings. -/
def jsGt (a b : String) : Bool := strLtChars b.data a.data

/-- Perfect-negotiation role decision of `handleOffer`
(`src/unnamed/part_001` line 323):
`this.isPolite = !!this.userId && !!data.sender && String(this.userId) > String(data.sender)`. -/
def computePolite (userId : String) (sender : Option String) : Bool :=
  (userId ≠ "") &&
    match sender with
    | none => false
    | some snd => (snd ≠ "") && jsGt userId snd

/-- An opaque ICE candidate. -/
structure Candidate where
  cid : Nat
deriving DecidableEq, Repr

/-- Kind of a media track. -/
inductive TrackKind where
  | audio
  | video
deriving DecidableEq, Repr

/-- A media track: its kind and an identity. -/
structure Track where
  kind : TrackKind
  tid : Nat
deriving DecidableEq, Repr

/-- An RTP transceiver: the fixed slot kind and the track currently held by
its sender (`none` = no track attached). -/
structure Transceiver where
  kind : TrackKind
  senderTrack : Option Track
deriving DecidableEq, Repr

/-- Signaling state of the peer connection. -/
inductive SignalingState where
  | stable
  | haveLocalOffer
  | haveRemoteOffer
  | haveLocalPranswer
  | haveRemotePranswer
  | closed
deriving DecidableEq, Repr

/-- The modelled `RTCPeerConnection`. -/
structure PeerConnection where
  signalingState : SignalingState
  localDescription : Option RTCSdp
  remoteDescription : Option RTCSdp
  transceivers : List Transceiver
  candidates : List Candidate
deriving DecidableEq, Repr

/-- The `WebRTCService` instance state (fields of the class). `socket` is
`some c` when the socket object exists, `c` recording whether it connected;
`dataChannel` holds the channel's `readyState`; `callbacks` is an opaque
token; `audioTransceiver` / `videoTransceiver` are indices into
`transceivers` of the pre-created slots. -/
structure Svc where
  socket : Option Bool
  peerConnection : Option PeerConnection
  localStream : Option (List Track)
  dataChannel : Option String
  callbacks : Option Nat
  roomId : String
  userId : String
  isInitialized : Bool
  makingOffer : Bool
  ignoreOffer : Bool
  isPolite : Bool
  audioTransceiver : Option Nat
  videoTransceiver : Option Nat
  nextTrackId : Nat
deriving DecidableEq, Repr

/-- The wire unit of the chat data channel (`ChatMessage` in `../types`):
`{ sender, message, time, senderId }`. -/
structure ChatMessage where
  sender : String
  message : String
  time : Nat
  senderId : String
deriving DecidableEq, Repr

/-- An envelope emitted by the service: one constructor per `emit` site of
the source.  `chatData` travels on the data channel, everything else on the
signaling socket.  `join` is `emit('join', this.roomId)`: its payload is
the bare room id string. -/
inductive OutMsg where
  | join (roomId : String)
  | offer (roomId : String) (sdp : RTCSdp) (sender : String)
  | answer (roomId : String) (sdp : RTCSdp) (sender : String)
  | iceCandidate (roomId : String) (candidate : Candidate) (sender : String)
  | chatSocket (roomId : String) (sender : String) (message : String)
  | chatData (m : ChatMessage)
  | callUser (roomId : String) (targetSocketId : String) (sender : String)
  | callAccepted (roomId : String) (targetSocketId : String) (sender : String)
  | callRejected (roomId : String) (targetSocketId : String) (sender : String)
  | endCall (roomId : String) (sender : String)
deriving DecidableEq, Repr

/-- Engine calls performed by a handler, recorded for observation.  The
`Bool` on `engCreateOffer` / `engSetLocal` is the value of `makingOffer`
at the moment of the call. -/
inductive EngAct where
  | closePC
  | newPC
  | addTransceiverA
  | addTransceiverV
  | createDataChannel
  | getUserMedia
  | replaceAudioTrack (t : Track)
  | replaceVideoTrack (t : Track)
  | addTrackCall (t : Track)
  | engCreateOffer (makingOffer : Bool)
  | engCreateAnswer
  | engSetLocal (makingOffer : Bool)
  | engSetRemote
  | engAddIce
deriving DecidableEq, Repr

/-- Result of running one handler: final state, emitted envelopes, engine
calls performed, and whether an exception escaped to the caller. -/
structure Res where
  st : Svc
  out : List OutMsg
  acts : List EngAct
  err : Bool
deriving DecidableEq, Repr

/-- Outcome oracle for the external engine and transport calls. -/
structure Engine where
  connectOk : Bool
  getUserMediaOk : Bool
  setRemoteOk : Bool
  createAnswerOk : Bool
  setLocalOk : Bool
  createOfferOk : Bool
  addIceOk : Bool
  errIsStateConflict : Bool
deriving DecidableEq, Repr

/-- The oracle on which every external call succeeds. -/
def allOk : Engine :=
  ⟨true, true, true, true, true, true, true, false⟩

/-! ## Perfect-negotiation variant (`src/unnamed/part_001`) -/

/-- Success semantics of `setRemoteDescription`: store the description;
an answer returns the connection to `stable`, anything else is a remote
offer. -/
def applyRemote (pc : PeerConnection) (dsdp : RTCSdp) : PeerConnection :=
  if dsdp.type = some "answer" then
    { pc with remoteDescription := some dsdp, signalingState := SignalingState.stable }
  else
    { pc with remoteDescription := some dsdp, signalingState := SignalingState.haveRemoteOffer }

/-- Success semantics of `setLocalDescription`. -/
def applyLocal (pc : PeerConnection) (dsdp : RTCSdp) : PeerConnection :=
  if dsdp.type = some "answer" then
    { pc with localDescription := some dsdp, signalingState := SignalingState.stable }
  else
    { pc with localDescription := some dsdp, signalingState := SignalingState.haveLocalOffer }

/-- The description blob produced by `createAnswer`. -/
def mkAnswerSdp : RTCSdp := ⟨some "answer", some "answer-sdp"⟩

/-- The description blob produced by `createOffer`. -/
def mkOfferSdp : RTCSdp := ⟨some "offer", some "offer-sdp"⟩

/-- The `addTrack` reuse rule of the media engine: reattach the track into the
first transceiver of matching kind whose sender holds no track; `none` when
no such slot exists. -/
def reuseSlot : List Transceiver → Track → Option (List Transceiver)
  | [], _ => none
  | tr :: rest, t =>
    if tr.kind = t.kind ∧ tr.senderTrack = none then
      some ({ tr with senderTrack := some t } :: rest)
    else
      (reuseSlot rest t).map (tr :: ·)

/-- The `peerConnection.addTrack(track, stream)`: reuse a free matching
transceiver slot when one exists, otherwise create a new track binding. -/
def pcAddTrack (pc : PeerConnection) (t : Track) : PeerConnection :=
  match reuseSlot pc.transceivers t with
  | some trs => { pc with transceivers := trs }
  | none => { pc with transceivers := pc.transceivers ++ [⟨t.kind, some t⟩] }

/-- Set the sender track of the transceiver at index `i`
(`transceiver.sender.replaceTrack(t)`). -/
def setSenderAt : List Transceiver → Nat → Option Track → List Transceiver
  | [], _, _ => []
  | tr :: rest, 0, t => { tr with senderTrack := t } :: rest
  | tr :: rest, n + 1, t => tr :: setSenderAt rest n t

/-- The `replaceTrack` on a transceiver slot of the connection. -/
def replaceSenderAt (pc : PeerConnection) (i : Nat) (t : Track) : PeerConnection :=
  { pc with transceivers := setSenderAt pc.transceivers i (some t) }

/-- Attach loop body of `startLocalStream` (`src/unnamed/part_001`
lines 253-265): audio tracks go through `replaceTrack` on the pre-created
audio transceiver, video tracks through the video transceiver, and
`addTrack` is the fallback when the slot reference is absent. -/
def attachTrack (s : Svc) (pc : PeerConnection) (t : Track) : PeerConnection × EngAct :=
  match t.kind, s.audioTransceiver, s.videoTransceiver with
  | TrackKind.audio, some i, _ => (replaceSenderAt pc i t, EngAct.replaceAudioTrack t)
  | TrackKind.video, _, some j => (replaceSenderAt pc j t, EngAct.replaceVideoTrack t)
  | _, _, _ => (pcAddTrack pc t, EngAct.addTrackCall t)

/-- The `startLocalStream` (`src/unnamed/part_001` lines 233-305): capture one
audio and one video track via `getUserMedia` (a failed first attempt is
retried with simpler constraints; both attempts failing rethrows), then
attach them into the pre-created transceiver slots via `replaceTrack`. -/
def startLocalStream (eng : Engine) (s : Svc) : Res :=
  if eng.getUserMediaOk then
    let ta : Track := ⟨TrackKind.audio, s.nextTrackId⟩
    let tv : Track := ⟨TrackKind.video, s.nextTrackId + 1⟩
    let s1 := { s with localStream := some [ta, tv], nextTrackId := s.nextTrackId + 2 }
    match s1.peerConnection with
    | some pc =>
      let r1 := attachTrack s1 pc ta
      let r2 := attachTrack s1 r1.1 tv
      ⟨{ s1 with peerConnection := some r2.1 }, [], [EngAct.getUserMedia, r1.2, r2.2], false⟩
    | none => ⟨s1, [], [EngAct.getUserMedia], false⟩
  else
    ⟨s, [], [EngAct.getUserMedia, EngAct.getUserMedia], true⟩

/-- The `initializePeerConnection` (`src/unnamed/part_001` lines 131-231):
fresh connection, two pre-created transceivers locking m-line order (audio
first, then video), all callbacks rebound, and the `chat` data channel
created. -/
def initializePeerConnection (s : Svc) : Svc × List EngAct :=
  let pc : PeerConnection :=
    ⟨SignalingState.stable, none, none, [⟨TrackKind.audio, none⟩, ⟨TrackKind.video, none⟩], []⟩
  ({ s with
      peerConnection := some pc
      audioTransceiver := some 0
      videoTransceiver := some 1
      dataChannel := some "connecting" },
   [EngAct.newPC, EngAct.addTransceiverA, EngAct.addTransceiverV, EngAct.createDataChannel])

/-- The `recoverFromSDPError` (`src/unnamed/part_001` lines 502-525): close the
existing connection, run `initializePeerConnection` again, and re-add every
track of the local stream via `addTrack`. -/
def recoverFromSDPError (s : Svc) : Res :=
  let acts0 : List EngAct :=
    match s.peerConnection with
    | some _ => [EngAct.closePC]
    | none => []
  let p := initializePeerConnection s
  match p.1.localStream, p.1.peerConnection with
  | some ts, some pc =>
    ⟨{ p.1 with peerConnection := some (ts.foldl pcAddTrack pc) }, [],
      acts0 ++ p.2 ++ ts.map EngAct.addTrackCall, false⟩
  | _, _ => ⟨p.1, [], acts0 ++ p.2, false⟩

/-- The shared `catch` of `handleOffer` / `handleAnswer`: when the error
message matches the state-conflict class (`error_content` /
`InvalidStateError`), run `recoverFromSDPError`; otherwise just log. -/
def sdpErrorCatch (eng : Engine) (s : Svc) (out : List OutMsg) (acts : List EngAct) : Res :=
  if eng.errIsStateConflict then
    let r := recoverFromSDPError s
    ⟨r.st, out ++ r.out, acts ++ r.acts, false⟩
  else
    ⟨s, out, acts, false⟩

/-- The `if (!this.localStream) await this.startLocalStream(true, true)`. -/
def ensureLocal (eng : Engine) (s : Svc) : Res :=
  match s.localStream with
  | some _ => ⟨s, [], [], false⟩
  | none => startLocalStream eng s

/-- Proceed path of `handleOffer` after the collision check: ensure local
media, apply the remote offer, create and apply an answer, emit the
`answer` envelope; any failure falls into the shared SDP-error `catch`. -/
def offerProceed (eng : Engine) (s : Svc) (dsdp : RTCSdp) : Res :=
  let r1 := ensureLocal eng s
  if r1.err then
    sdpErrorCatch eng r1.st r1.out r1.acts
  else
    match r1.st.peerConnection with
    | none => ⟨r1.st, r1.out, r1.acts, false⟩
    | some pc =>
      if eng.setRemoteOk then
        let s2 := { r1.st with peerConnection := some (applyRemote pc dsdp) }
        if eng.createAnswerOk then
          if eng.setLocalOk then
            match s2.peerConnection with
            | some pc2 =>
              let s3 := { s2 with peerConnection := some (applyLocal pc2 mkAnswerSdp) }
              let outAns : List OutMsg :=
                if s3.socket.isSome then [OutMsg.answer s3.roomId mkAnswerSdp s3.userId] else []
              ⟨s3, r1.out ++ outAns,
                r1.acts ++ [EngAct.engSetRemote, EngAct.engCreateAnswer, EngAct.engSetLocal s3.makingOffer],
                false⟩
            | none => ⟨s2, r1.out, r1.acts ++ [EngAct.engSetRemote, EngAct.engCreateAnswer], false⟩
          else
            sdpErrorCatch eng s2 r1.out
              (r1.acts ++ [EngAct.engSetRemote, EngAct.engCreateAnswer, EngAct.engSetLocal s2.makingOffer])
        else
          sdpErrorCatch eng s2 r1.out (r1.acts ++ [EngAct.engSetRemote, EngAct.engCreateAnswer])
      else
        sdpErrorCatch eng r1.st r1.out (r1.acts ++ [EngAct.engSetRemote])

/-- The `handleOffer` (`src/unnamed/part_001` lines 307-362): drop when the
connection is absent or the SDP payload fails validation; recompute the
politeness role; detect a collision (`makingOffer` or non-stable signaling
state); an impolite side in collision ignores the offer wholesale, setting
`ignoreOffer`; otherwise proceed to answer. -/
def handleOffer (eng : Engine) (s : Svc) (d : SignalData) : Res :=
  match s.peerConnection with
  | none => ⟨s, [], [], false⟩
  | some pc =>
    match d.sdp with
    | none => ⟨s, [], [], false⟩
    | some dsdp =>
      if truthyS dsdp.type && truthyS dsdp.sdp then
        let polite := computePolite s.userId d.sender
        let collision := s.makingOffer || decide (pc.signalingState ≠ SignalingState.stable)
        let ign := !polite && collision
        let s2 := { s with isPolite := polite, ignoreOffer := ign }
        if ign then ⟨s2, [], [], false⟩
        else offerProceed eng s2 dsdp
      else ⟨s, [], [], false⟩

/-- The `handleAnswer` (`src/unnamed/part_001` lines 364-396): drop when the
connection is absent, the SDP payload fails validation, or `ignoreOffer` is
set; otherwise apply the answer as remote description, recovering on a
state-conflict failure. -/
def handleAnswer (eng : Engine) (s : Svc) (d : SignalData) : Res :=
  match s.peerConnection with
  | none => ⟨s, [], [], false⟩
  | some pc =>
    match d.sdp with
    | none => ⟨s, [], [], false⟩
    | some dsdp =>
      if truthyS dsdp.type && truthyS dsdp.sdp then
        if s.ignoreOffer then ⟨s, [], [], false⟩
        else if eng.setRemoteOk then
          ⟨{ s with peerConnection := some (applyRemote pc dsdp) }, [], [EngAct.engSetRemote], false⟩
        else sdpErrorCatch eng s [] [EngAct.engSetRemote]
      else ⟨s, [], [], false⟩

/-- The `handleIceCandidate` (`src/unnamed/part_001` lines 398-417): drop when
the connection is absent or `ignoreOffer` is set; a missing candidate or a
failed `addIceCandidate` is logged and swallowed. -/
def handleIceCandidate (eng : Engine) (s : Svc) (c : Option Candidate) : Res :=
  match s.peerConnection with
  | none => ⟨s, [], [], false⟩
  | some pc =>
    if s.ignoreOffer then ⟨s, [], [], false⟩
    else
      match c with
      | none => ⟨s, [], [], false⟩
      | some cand =>
        if eng.addIceOk then
          ⟨{ s with peerConnection := some { pc with candidates := pc.candidates ++ [cand] } },
            [], [EngAct.engAddIce], false⟩
        else ⟨s, [], [EngAct.engAddIce], false⟩

/-- The `onnegotiationneeded` (`src/unnamed/part_001` lines 157-174): guard on
the connection, hold `makingOffer` true while the offer is created and
applied, emit the `offer` envelope, and clear `makingOffer` in `finally`
on every path (including the early return and both failure points). -/
def onNegotiationNeeded (eng : Engine) (s : Svc) : Res :=
  match s.peerConnection with
  | none => ⟨{ s with makingOffer := false }, [], [], false⟩
  | some pc =>
    let s1 := { s with makingOffer := true }
    if eng.createOfferOk then
      if eng.setLocalOk then
        let s2 := { s1 with peerConnection := some (applyLocal pc mkOfferSdp) }
        let outOff : List OutMsg :=
          if s2.socket.isSome then [OutMsg.offer s2.roomId mkOfferSdp s2.userId] else []
        ⟨{ s2 with makingOffer := false }, outOff,
          [EngAct.engCreateOffer s1.makingOffer, EngAct.engSetLocal s1.makingOffer], false⟩
      else
        ⟨{ s1 with makingOffer := false }, [],
          [EngAct.engCreateOffer s1.makingOffer, EngAct.engSetLocal s1.makingOffer], false⟩
    else
      ⟨{ s1 with makingOffer := false }, [], [EngAct.engCreateOffer s1.makingOffer], false⟩

/-- The `createOffer` (`src/unnamed/part_001` lines 466-500), the manual
negotiation trigger: guard on the connection, ensure local media, create
and apply an offer, emit the `offer` envelope; failures are rethrown.
Note that this path never touches `makingOffer`. -/
def createOffer (eng : Engine) (s : Svc) : Res :=
  match s.peerConnection with
  | none => ⟨s, [], [], false⟩
  | some _ =>
    let r1 := ensureLocal eng s
    if r1.err then ⟨r1.st, r1.out, r1.acts, true⟩
    else
      match r1.st.peerConnection with
      | none => ⟨r1.st, r1.out, r1.acts, true⟩
      | some pc =>
        if eng.createOfferOk then
          if eng.setLocalOk then
            let s2 := { r1.st with peerConnection := some (applyLocal pc mkOfferSdp) }
            let outOff : List OutMsg :=
              if s2.socket.isSome then [OutMsg.offer s2.roomId mkOfferSdp s2.userId] else []
            ⟨s2, r1.out ++ outOff,
              r1.acts ++ [EngAct.engCreateOffer s2.makingOffer, EngAct.engSetLocal s2.makingOffer],
              false⟩
          else
            ⟨r1.st, r1.out,
              r1.acts ++ [EngAct.engCreateOffer r1.st.makingOffer, EngAct.engSetLocal r1.st.makingOffer],
              true⟩
        else
          ⟨r1.st, r1.out, r1.acts ++ [EngAct.engCreateOffer r1.st.makingOffer], true⟩

/-- The `sendChatMessage` (`src/unnamed/part_001` lines 572-591): when the data
channel does not report itself open, fall back to the signaling socket with
a `{ roomId, sender, message }` payload; otherwise send a full
`ChatMessage` over the data channel.  `now` is `Date.now()`. -/
def sendChatMessage (s : Svc) (message : String) (now : Nat) : Res :=
  match s.dataChannel with
  | some rs =>
    if rs = "open" then
      ⟨s, [OutMsg.chatData ⟨s.userId, message, now, s.userId⟩], [], false⟩
    else if s.socket.isSome then
      ⟨s, [OutMsg.chatSocket s.roomId s.userId message], [], false⟩
    else ⟨s, [], [], false⟩
  | none =>
    if s.socket.isSome then
      ⟨s, [OutMsg.chatSocket s.roomId s.userId message], [], false⟩
    else ⟨s, [], [], false⟩

/-- The `makeCall` (`src/unnamed/part_001` lines 593-599). -/
def makeCall (s : Svc) (targetSocketId : String) : Res :=
  if s.socket.isSome then
    ⟨s, [OutMsg.callUser s.roomId targetSocketId s.userId], [], false⟩
  else ⟨s, [], [], false⟩

/-- The `acceptCall` (`src/unnamed/part_001` lines 601-607). -/
def acceptCall (s : Svc) (callerSocketId : String) : Res :=
  if s.socket.isSome then
    ⟨s, [OutMsg.callAccepted s.roomId callerSocketId s.userId], [], false⟩
  else ⟨s, [], [], false⟩

/-- The `rejectCall` (`src/unnamed/part_001` lines 609-615). -/
def rejectCall (s : Svc) (callerSocketId : String) : Res :=
  if s.socket.isSome then
    ⟨s, [OutMsg.callRejected s.roomId callerSocketId s.userId], [], false⟩
  else ⟨s, [], [], false⟩

/-- The `endCall` (`src/unnamed/part_001` lines 617-622). -/
def endCallCmd (s : Svc) : Res :=
  if s.socket.isSome then
    ⟨s, [OutMsg.endCall s.roomId s.userId], [], false⟩
  else ⟨s, [], [], false⟩

/-- The socket `connect` callback of `initializeSocket`
(`src/unnamed/part_001` lines 94-98): mark the socket connected and emit
`join` with the room id as its whole payload. -/
def onSocketConnect (s : Svc) : Res :=
  ⟨{ s with socket := some true }, [OutMsg.join s.roomId], [], false⟩

/-- The `onicecandidate` callback (`src/unnamed/part_001` lines 143-154):
a non-null gathered candidate is emitted with `roomId` and `sender`. -/
def onIceCandidateLocal (s : Svc) (c : Option Candidate) : Res :=
  match c with
  | some cand =>
    if s.socket.isSome then
      ⟨s, [OutMsg.iceCandidate s.roomId cand s.userId], [], false⟩
    else ⟨s, [], [], false⟩
  | none => ⟨s, [], [], false⟩

/-- The `handleRoomUpdate` / `handleJoined` / `handleChatMessage` of
`src/unnamed/part_001`: they only forward data to the upward callbacks and
emit nothing on the wire. -/
def handleRosterOrChat (s : Svc) : Res := ⟨s, [], [], false⟩

/-- The `initialize` (`src/unnamed/part_001` lines 57-85): a second call on an
already-initialized service returns immediately; otherwise store the room,
user and callbacks, connect the socket (emitting `join` on connect, or
rethrowing the connection error), and build the peer connection. -/
def initializeService (eng : Engine) (s : Svc) (roomId userId : String) (cbs : Nat) : Res :=
  if s.isInitialized then ⟨s, [], [], false⟩
  else
    let s1 := { s with roomId := roomId, userId := userId, callbacks := some cbs }
    if eng.connectOk then
      let s2 := { s1 with socket := some true }
      let p := initializePeerConnection s2
      ⟨{ p.1 with isInitialized := true }, [OutMsg.join roomId], p.2, false⟩
    else
      ⟨{ s1 with socket := some false }, [], [], true⟩

/-- One inbound or command event of the orchestrator. -/
inductive Ev where
  | socketConnect
  | offerMsg (d : SignalData)
  | answerMsg (d : SignalData)
  | iceMsg (c : Option Candidate)
  | negotiationNeeded
  | manualCreateOffer
  | localIce (c : Option Candidate)
  | rosterOrChatIn
  | sendChat (message : String) (now : Nat)
  | callUserCmd (target : String)
  | acceptCallCmd (target : String)
  | rejectCallCmd (target : String)
  | endCallEvt
deriving DecidableEq, Repr

/-- Event dispatcher of the perfect-negotiation service: routes each event
to its handler, exactly as `initializeSocket` wires the socket events and
the facade exposes the commands. -/
def dispatch (eng : Engine) (s : Svc) : Ev → Res
  | Ev.socketConnect => onSocketConnect s
  | Ev.offerMsg d => handleOffer eng s d
  | Ev.answerMsg d => handleAnswer eng s d
  | Ev.iceMsg c => handleIceCandidate eng s c
  | Ev.negotiationNeeded => onNegotiationNeeded eng s
  | Ev.manualCreateOffer => createOffer eng s
  | Ev.localIce c => onIceCandidateLocal s c
  | Ev.rosterOrChatIn => handleRosterOrChat s
  | Ev.sendChat m now => sendChatMessage s m now
  | Ev.callUserCmd t => makeCall s t
  | Ev.acceptCallCmd t => acceptCall s t
  | Ev.rejectCallCmd t => rejectCall s t
  | Ev.endCallEvt => endCallCmd s

/-! ## Older variant (`src/services/WebRTCService.ts`) -/

/-- The `initializePeerConnection` of `src/services/WebRTCService.ts`
(lines 123-195): fresh connection with no pre-created transceivers, plus
the `chat` data channel. -/
def oldInitializePeerConnection (s : Svc) : Svc × List EngAct :=
  let pc : PeerConnection := ⟨SignalingState.stable, none, none, [], []⟩
  ({ s with
      peerConnection := some pc
      audioTransceiver := none
      videoTransceiver := none
      dataChannel := some "connecting" },
   [EngAct.newPC, EngAct.createDataChannel])

/-- The `startLocalStream` of `src/services/WebRTCService.ts` (lines 197-256):
capture, then attach every track via `addTrack`. -/
def oldStartLocalStream (eng : Engine) (s : Svc) : Res :=
  if eng.getUserMediaOk then
    let ta : Track := ⟨TrackKind.audio, s.nextTrackId⟩
    let tv : Track := ⟨TrackKind.video, s.nextTrackId + 1⟩
    let s1 := { s with localStream := some [ta, tv], nextTrackId := s.nextTrackId + 2 }
    match s1.peerConnection with
    | some pc =>
      ⟨{ s1 with peerConnection := some (pcAddTrack (pcAddTrack pc ta) tv) }, [],
        [EngAct.getUserMedia, EngAct.addTrackCall ta, EngAct.addTrackCall tv], false⟩
    | none => ⟨s1, [], [EngAct.getUserMedia], false⟩
  else
    ⟨s, [], [EngAct.getUserMedia, EngAct.getUserMedia], true⟩

/-- Local-stream guard of the older variant. -/
def oldEnsureLocal (eng : Engine) (s : Svc) : Res :=
  match s.localStream with
  | some _ => ⟨s, [], [], false⟩
  | none => oldStartLocalStream eng s

/-- The `recoverFromSDPError` of `src/services/WebRTCService.ts`
(lines 460-483). -/
def oldRecoverFromSDPError (s : Svc) : Res :=
  let acts0 : List EngAct :=
    match s.peerConnection with
    | some _ => [EngAct.closePC]
    | none => []
  let p := oldInitializePeerConnection s
  match p.1.localStream, p.1.peerConnection with
  | some ts, some pc =>
    ⟨{ p.1 with peerConnection := some (ts.foldl pcAddTrack pc) }, [],
      acts0 ++ p.2 ++ ts.map EngAct.addTrackCall, false⟩
  | _, _ => ⟨p.1, [], acts0 ++ p.2, false⟩

/-- Shared SDP-error `catch` of the older variant's offer/answer handlers. -/
def oldSdpErrorCatch (eng : Engine) (s : Svc) (out : List OutMsg) (acts : List EngAct) : Res :=
  if eng.errIsStateConflict then
    let r := oldRecoverFromSDPError s
    ⟨r.st, out ++ r.out, acts ++ r.acts, false⟩
  else
    ⟨s, out, acts, false⟩

/-- Proceed path of the older variant's `handleOffer` once the duplicate
guard has passed. -/
def oldOfferProceed (eng : Engine) (s : Svc) (dsdp : RTCSdp) : Res :=
  let r1 := oldEnsureLocal eng s
  if r1.err then
    oldSdpErrorCatch eng r1.st r1.out r1.acts
  else
    match r1.st.peerConnection with
    | none => ⟨r1.st, r1.out, r1.acts, false⟩
    | some pc =>
      if eng.setRemoteOk then
        let s2 := { r1.st with peerConnection := some (applyRemote pc dsdp) }
        if eng.createAnswerOk then
          if eng.setLocalOk then
            match s2.peerConnection with
            | some pc2 =>
              let s3 := { s2 with peerConnection := some (applyLocal pc2 mkAnswerSdp) }
              let outAns : List OutMsg :=
                if s3.socket.isSome then [OutMsg.answer s3.roomId mkAnswerSdp s3.userId] else []
              ⟨s3, r1.out ++ outAns,
                r1.acts ++ [EngAct.engSetRemote, EngAct.engCreateAnswer, EngAct.engSetLocal s3.makingOffer],
                false⟩
            | none => ⟨s2, r1.out, r1.acts ++ [EngAct.engSetRemote, EngAct.engCreateAnswer], false⟩
          else
            oldSdpErrorCatch eng s2 r1.out
              (r1.acts ++ [EngAct.engSetRemote, EngAct.engCreateAnswer, EngAct.engSetLocal s2.makingOffer])
        else
          oldSdpErrorCatch eng s2 r1.out (r1.acts ++ [EngAct.engSetRemote, EngAct.engCreateAnswer])
      else
        oldSdpErrorCatch eng r1.st r1.out (r1.acts ++ [EngAct.engSetRemote])

/-- The `handleOffer` of `src/services/WebRTCService.ts` (lines 258-312):
after validation, an offer arriving while a remote description is already
set is logged and ignored (duplicate-offer guard, lines 273-277);
otherwise ensure local media, apply the offer, answer it. -/
def oldHandleOffer (eng : Engine) (s : Svc) (d : SignalData) : Res :=
  match s.peerConnection with
  | none => ⟨s, [], [], false⟩
  | some pc =>
    match d.sdp with
    | none => ⟨s, [], [], false⟩
    | some dsdp =>
      if truthyS dsdp.type && truthyS dsdp.sdp then
        if pc.remoteDescription.isSome then ⟨s, [], [], false⟩
        else oldOfferProceed eng s dsdp
      else ⟨s, [], [], false⟩

/-- The `handleAnswer` of `src/services/WebRTCService.ts` (lines 314-348):
after validation, an answer arriving while a remote description is already
set is logged and ignored (duplicate-answer guard, lines 327-331);
otherwise apply it as remote description. -/
def oldHandleAnswer (eng : Engine) (s : Svc) (d : SignalData) : Res :=
  match s.peerConnection with
  | none => ⟨s, [], [], false⟩
  | some pc =>
    match d.sdp with
    | none => ⟨s, [], [], false⟩
    | some dsdp =>
      if truthyS dsdp.type && truthyS dsdp.sdp then
        if pc.remoteDescription.isSome then ⟨s, [], [], false⟩
        else if eng.setRemoteOk then
          ⟨{ s with peerConnection := some (applyRemote pc dsdp) }, [], [EngAct.engSetRemote], false⟩
        else oldSdpErrorCatch eng s [] [EngAct.engSetRemote]
      else ⟨s, [], [], false⟩

/-! ## Observation predicates and sample states -/

/-- Number of transceiver slots of the connection whose sender holds a
track of kind `k`. -/
def attachedCount (pc : PeerConnection) (k : TrackKind) : Nat :=
  (pc.transceivers.filter fun tr =>
    match tr.senderTrack with
    | some t => decide (t.kind = k)
    | none => false).length

/-- A service state with every field empty, as after construction. -/
def emptySvc : Svc :=
  ⟨none, none, none, none, none, "", "", false, false, false, false, none, none, 0⟩

/-- Transceiver slots produced by the initial attach: run
`initializePeerConnection` on a fresh service and push the two captured
tracks through the `replaceTrack` attach loop of `startLocalStream`. -/
def initialAttachTransceivers (ta tv : Track) : List Transceiver :=
  let p := initializePeerConnection emptySvc
  match p.1.peerConnection with
  | some pc => ((attachTrack p.1 (attachTrack p.1 pc ta).1 tv).1).transceivers
  | none => []

/-- Whether an emitted envelope travels on the signaling socket (everything
except the data-channel chat payload). -/
def viaSocket : OutMsg → Bool
  | OutMsg.chatData _ => false
  | _ => true

/-- Whether the wire payload of an emitted envelope carries the room id.
`join`'s payload is the room id itself; the data-channel chat payload has
no room field. -/
def msgHasRoomId : OutMsg → Bool
  | OutMsg.chatData _ => false
  | _ => true

/-- Whether the wire payload of an emitted envelope carries a `sender`
field.  `join` is emitted as `emit('join', this.roomId)`: its payload is a
bare string with no `sender`. -/
def msgHasSender : OutMsg → Bool
  | OutMsg.join _ => false
  | _ => true

/-- Whether an emitted chat payload has the `ChatMessage` shape
`{ sender, message, time, senderId }`.  The socket fallback payload is
`{ roomId, sender, message }`: it has no `time` and no `senderId` field. -/
def chatPayloadIsChatMessage : OutMsg → Bool
  | OutMsg.chatData _ => true
  | _ => false

/-- The room id carried by the wire payload of an emitted envelope
(`join`'s payload is the bare room id; the data-channel chat payload has
no room field). -/
def msgRoomId : OutMsg → Option String
  | OutMsg.join r => some r
  | OutMsg.offer r _ _ => some r
  | OutMsg.answer r _ _ => some r
  | OutMsg.iceCandidate r _ _ => some r
  | OutMsg.chatSocket r _ _ => some r
  | OutMsg.chatData _ => none
  | OutMsg.callUser r _ _ => some r
  | OutMsg.callAccepted r _ _ => some r
  | OutMsg.callRejected r _ _ => some r
  | OutMsg.endCall r _ => some r

/-- The `sender` field carried by the wire payload of an emitted envelope
(`join` carries none). -/
def msgSender : OutMsg → Option String
  | OutMsg.join _ => none
  | OutMsg.offer _ _ u => some u
  | OutMsg.answer _ _ u => some u
  | OutMsg.iceCandidate _ _ u => some u
  | OutMsg.chatSocket _ u _ => some u
  | OutMsg.chatData cm => some cm.sender
  | OutMsg.callUser _ _ u => some u
  | OutMsg.callAccepted _ _ u => some u
  | OutMsg.callRejected _ _ u => some u
  | OutMsg.endCall _ u => some u

/-- The event is a valid inbound offer that `handleOffer`, run on state
`s`, classifies as a collision with the local side impolite. -/
def collisionOfferEvent (s : Svc) (ev : Ev) : Prop :=
  ∃ d pc dsdp, ev = Ev.offerMsg d ∧
    s.peerConnection = some pc ∧
    d.sdp = some dsdp ∧
    truthyS dsdp.type = true ∧ truthyS dsdp.sdp = true ∧
    computePolite s.userId d.sender = false ∧
    (s.makingOffer = true ∨ pc.signalingState ≠ SignalingState.stable)

/-- A connection in stable state with the two pre-created empty slots. -/
def pcStable : PeerConnection :=
  ⟨SignalingState.stable, none, none, [⟨TrackKind.audio, none⟩, ⟨TrackKind.video, none⟩], []⟩

/-- A fully initialized service for user `bob` in `room1`, local media
captured and attached, data channel still connecting. -/
def svcBase : Svc :=
  ⟨some true,
   some ⟨SignalingState.stable, none, none,
     [⟨TrackKind.audio, some ⟨TrackKind.audio, 0⟩⟩, ⟨TrackKind.video, some ⟨TrackKind.video, 1⟩⟩], []⟩,
   some [⟨TrackKind.audio, 0⟩, ⟨TrackKind.video, 1⟩],
   some "connecting", some 0, "room1", "bob", true, false, false, false, some 0, some 1, 2⟩

/-- A valid inbound offer from `alice`. -/
def dOfferAlice : SignalData := ⟨some ⟨some "offer", some "v=0"⟩, some "alice"⟩

/-! ## Claims -/

/-- Claim C2, counterexample.  The claim quantifies over all pairs of
distinct participant identifiers, but the role decision
`!!userId && !!sender && userId > sender` makes *both* sides impolite when
one identifier is the empty string: for the distinct pair `("", "x")`
politeness is `false` on both ends, so the pair does not yield exactly one
polite and one impolite role. -/
theorem computePolite_not_antisymmetric_on_empty :
    ("" : String) ≠ "x" ∧
    computePolite "" (some "x") = false ∧
    computePolite "x" (some "") = false := by
  decide

/-- Claim C2, amended: for any pair of *nonempty* distinct participant
identifiers, politeness computed independently on each side yields exactly
one polite and one impolite role, and the computation is deterministic
(stable under repeated evaluation). -/
theorem computePolite_antisymmetric (a b : String) (ha : a ≠ "") (hb : b ≠ "")
    (hab : a ≠ b) :
    (computePolite a (some b) = true ↔ computePolite b (some a) = false) ∧
    computePolite a (some b) = computePolite a (some b) := by
  refine ⟨?_, rfl⟩
  have hdata : a.data ≠ b.data := fun h => hab (by
    cases a; cases b; simp only at h; simp [h])
  have key : ∀ (x y : List Char), x ≠ y → (strLtChars x y = true ↔ strLtChars y x = false) := by
    intro x
    induction x with
    | nil =>
      intro y hy
      cases y with
      | nil => exact absurd rfl hy
      | cons c cs => simp [strLtChars]
    | cons c cs ih =>
      intro y hy
      cases y with
      | nil => simp [strLtChars]
      | cons d ds =>
        by_cases hcd : c = d
        · subst hcd
          have hne : cs ≠ ds := fun h => hy (by rw [h])
          simpa [strLtChars] using ih ds hne
        · rcases lt_or_gt_of_ne hcd with hlt | hgt
          · simp [strLtChars, hlt, asymm hlt]
          · simp [strLtChars, hgt, asymm hgt]
  have hda : (decide ¬a = "") = true := by simp [ha]
  have hdb : (decide ¬b = "") = true := by simp [hb]
  simp only [computePolite, jsGt, ne_eq, hda, hdb, Bool.true_and]
  exact key b.data a.data fun hh => hdata hh.symm

/-- Claim C2, witness: politeness on the concrete distinct nonempty pair
`("bob", "alice")` is polite on exactly one side. -/
theorem computePolite_antisymmetric_witness :
    computePolite "bob" (some "alice") = true ∧
    computePolite "alice" (some "bob") = false := by
  have h := computePolite_antisymmetric "bob" "alice" (by decide) (by decide) (by decide)
  exact ⟨by decide, h.1.mp (by decide)⟩

/-- Claim C9: an inbound offer whose `sdp` object is missing, or whose
`sdp.type` or `sdp.sdp` field is missing, is dropped: `handleOffer` returns
with the whole service state untouched (negotiation flags, politeness,
descriptions), emits nothing, performs no engine call and throws nothing —
for every starting state and every engine oracle. -/
theorem handleOffer_drops_malformed (eng : Engine) (s : Svc) (d : SignalData)
    (h : d.sdp = none ∨ ∃ x, d.sdp = some x ∧ (x.type = none ∨ x.sdp = none)) :
    handleOffer eng s d = ⟨s, [], [], false⟩ := by
  unfold handleOffer
  rcases h with h | ⟨x, hx, hfield⟩
  · cases hpc : s.peerConnection with
    | none => rfl
    | some pc => simp [h]
  · cases hpc : s.peerConnection with
    | none => rfl
    | some pc =>
      have : (truthyS x.type && truthyS x.sdp) = false := by
        rcases hfield with hf | hf <;> simp [truthyS, hf]
      simp [hx, this]

/-- Claim C9, witness: a concrete offer envelope carrying an `sdp` object
without a `type` field is dropped with the state unchanged. -/
theorem handleOffer_drops_malformed_witness :
    handleOffer allOk svcBase ⟨some ⟨none, some "v=0"⟩, some "alice"⟩ =
      ⟨svcBase, [], [], false⟩ :=
  handleOffer_drops_malformed allOk svcBase ⟨some ⟨none, some "v=0"⟩, some "alice"⟩
    (Or.inr ⟨⟨none, some "v=0"⟩, rfl, Or.inl rfl⟩)

/-- Claim C10: calling `initialize` on an already-initialized service is a
pure no-op: it returns without error, emits nothing, performs no engine
call, and leaves every field — room, user, callbacks, socket, peer
connection, negotiation flags — exactly as it was. -/
theorem initializeService_idempotent (eng : Engine) (s : Svc)
    (roomId userId : String) (cbs : Nat) (h : s.isInitialized = true) :
    initializeService eng s roomId userId cbs = ⟨s, [], [], false⟩ := by
  unfold initializeService
  simp [h]

/-- Claim C10, witness: re-initializing the concrete initialized service
with different parameters changes nothing. -/
theorem initializeService_idempotent_witness :
    initializeService allOk svcBase "otherRoom" "carol" 9 = ⟨svcBase, [], [], false⟩ :=
  initializeService_idempotent allOk svcBase "otherRoom" "carol" 9 rfl

/-- Claim C4: in the variant of `src/services/WebRTCService.ts`, once a
remote description is set, a further inbound offer with valid SDP is
dropped without error (no description applied, nothing emitted, state
unchanged) and a further (duplicate) answer is likewise a no-op. -/
theorem old_duplicate_offer_answer_noop (eng : Engine) (s : Svc) (d : SignalData)
    (pc : PeerConnection) (r : RTCSdp)
    (hpc : s.peerConnection = some pc) (hr : pc.remoteDescription = some r)
    (hv : sdpValid d = true) :
    oldHandleOffer eng s d = ⟨s, [], [], false⟩ ∧
    oldHandleAnswer eng s d = ⟨s, [], [], false⟩ := by
  unfold sdpValid at hv
  cases hsdp : d.sdp with
  | none => rw [hsdp] at hv; exact absurd hv (by simp)
  | some dsdp =>
    rw [hsdp] at hv
    constructor
    · unfold oldHandleOffer
      simp [hpc, hsdp, hv, hr]
    · unfold oldHandleAnswer
      simp [hpc, hsdp, hv, hr]

/-- Claim C4, witness: on a concrete state whose connection already holds a
remote description, a concrete duplicate offer and duplicate answer are
both no-ops. -/
theorem old_duplicate_offer_answer_noop_witness :
    oldHandleOffer allOk
      ⟨some true, some ⟨SignalingState.stable, some mkAnswerSdp, some ⟨some "offer", some "v=0"⟩, [], []⟩,
        some [⟨TrackKind.audio, 0⟩, ⟨TrackKind.video, 1⟩], some "open", some 0,
        "room1", "bob", true, false, false, false, none, none, 2⟩
      dOfferAlice =
      ⟨⟨some true, some ⟨SignalingState.stable, some mkAnswerSdp, some ⟨some "offer", some "v=0"⟩, [], []⟩,
        some [⟨TrackKind.audio, 0⟩, ⟨TrackKind.video, 1⟩], some "open", some 0,
        "room1", "bob", true, false, false, false, none, none, 2⟩, [], [], false⟩ :=
  (old_duplicate_offer_answer_noop allOk _ dOfferAlice
    ⟨SignalingState.stable, some mkAnswerSdp, some ⟨some "offer", some "v=0"⟩, [], []⟩
    ⟨some "offer", some "v=0"⟩ rfl rfl (by decide)).1

/-! ## Helper lemmas about the handlers -/

/-- The `startLocalStream` touches only `localStream`, `nextTrackId` and the
connection's transceivers: every other service field, the negotiation
flags in particular, is preserved, it emits nothing, and on success it
does not throw. -/
theorem startLocalStream_frame (eng : Engine) (s : Svc) :
    (startLocalStream eng s).st.ignoreOffer = s.ignoreOffer ∧
    (startLocalStream eng s).st.makingOffer = s.makingOffer ∧
    (startLocalStream eng s).st.isPolite = s.isPolite ∧
    (startLocalStream eng s).st.socket = s.socket ∧
    (startLocalStream eng s).st.roomId = s.roomId ∧
    (startLocalStream eng s).st.userId = s.userId ∧
    (startLocalStream eng s).out = [] := by
  unfold startLocalStream
  cases hgum : eng.getUserMediaOk with
  | false => simp
  | true =>
    cases hpc : s.peerConnection with
    | none => simp [hpc]
    | some pc => simp [hpc]

/-- The `ensureLocal` inherits the frame of `startLocalStream`. -/
theorem ensureLocal_frame (eng : Engine) (s : Svc) :
    (ensureLocal eng s).st.ignoreOffer = s.ignoreOffer ∧
    (ensureLocal eng s).st.makingOffer = s.makingOffer ∧
    (ensureLocal eng s).st.isPolite = s.isPolite ∧
    (ensureLocal eng s).st.socket = s.socket ∧
    (ensureLocal eng s).st.roomId = s.roomId ∧
    (ensureLocal eng s).st.userId = s.userId ∧
    (ensureLocal eng s).out = [] := by
  unfold ensureLocal
  cases hls : s.localStream with
  | none => exact startLocalStream_frame eng s
  | some ts => simp

/-- The `recoverFromSDPError` rebuilds the connection but preserves the
negotiation flags, the identifiers and the socket, and emits nothing. -/
theorem recoverFromSDPError_frame (s : Svc) :
    (recoverFromSDPError s).st.ignoreOffer = s.ignoreOffer ∧
    (recoverFromSDPError s).st.makingOffer = s.makingOffer ∧
    (recoverFromSDPError s).st.isPolite = s.isPolite ∧
    (recoverFromSDPError s).st.socket = s.socket ∧
    (recoverFromSDPError s).st.roomId = s.roomId ∧
    (recoverFromSDPError s).st.userId = s.userId ∧
    (recoverFromSDPError s).out = [] := by
  unfold recoverFromSDPError initializePeerConnection
  cases hls : s.localStream <;> cases hpc : s.peerConnection <;> simp [hls, hpc]

/-- The `sdpErrorCatch` preserves the flags, identifiers and socket, and its
output is exactly the output accumulated before the failure. -/
theorem sdpErrorCatch_frame (eng : Engine) (s : Svc) (o : List OutMsg) (a : List EngAct) :
    (sdpErrorCatch eng s o a).st.ignoreOffer = s.ignoreOffer ∧
    (sdpErrorCatch eng s o a).st.makingOffer = s.makingOffer ∧
    (sdpErrorCatch eng s o a).st.isPolite = s.isPolite ∧
    (sdpErrorCatch eng s o a).st.socket = s.socket ∧
    (sdpErrorCatch eng s o a).st.roomId = s.roomId ∧
    (sdpErrorCatch eng s o a).st.userId = s.userId ∧
    (sdpErrorCatch eng s o a).out = o := by
  unfold sdpErrorCatch
  cases hc : eng.errIsStateConflict with
  | false => simp
  | true =>
    have h := recoverFromSDPError_frame s
    simp only [if_pos rfl]
    exact ⟨h.1, h.2.1, h.2.2.1, h.2.2.2.1, h.2.2.2.2.1, h.2.2.2.2.2.1,
      by rw [h.2.2.2.2.2.2]; simp⟩

/-- The `offerProceed` preserves the negotiation flags, identifiers and
socket. -/
theorem offerProceed_frame (eng : Engine) (s : Svc) (dsdp : RTCSdp) :
    (offerProceed eng s dsdp).st.ignoreOffer = s.ignoreOffer ∧
    (offerProceed eng s dsdp).st.makingOffer = s.makingOffer ∧
    (offerProceed eng s dsdp).st.isPolite = s.isPolite ∧
    (offerProceed eng s dsdp).st.socket = s.socket ∧
    (offerProceed eng s dsdp).st.roomId = s.roomId ∧
    (offerProceed eng s dsdp).st.userId = s.userId := by
  have he := ensureLocal_frame eng s
  unfold offerProceed
  cases herr : (ensureLocal eng s).err with
  | true =>
    have hc := sdpErrorCatch_frame eng (ensureLocal eng s).st (ensureLocal eng s).out
      (ensureLocal eng s).acts
    simp only [herr, if_pos rfl]
    exact ⟨hc.1.trans he.1, hc.2.1.trans he.2.1, hc.2.2.1.trans he.2.2.1,
      hc.2.2.2.1.trans he.2.2.2.1, hc.2.2.2.2.1.trans he.2.2.2.2.1,
      hc.2.2.2.2.2.1.trans he.2.2.2.2.2.1⟩
  | false =>
    simp only [herr, if_neg (by decide : ¬ (false = true))]
    cases hpc : (ensureLocal eng s).st.peerConnection with
    | none => simp [he.1, he.2.1, he.2.2.1, he.2.2.2.1, he.2.2.2.2.1, he.2.2.2.2.2.1]
    | some pc =>
      cases hsr : eng.setRemoteOk with
      | false =>
        have hc := sdpErrorCatch_frame eng (ensureLocal eng s).st (ensureLocal eng s).out
          ((ensureLocal eng s).acts ++ [EngAct.engSetRemote])
        simp only [hpc, hsr, Bool.false_eq_true, if_neg (by decide : ¬ (false = true))]
        exact ⟨hc.1.trans he.1, hc.2.1.trans he.2.1, hc.2.2.1.trans he.2.2.1,
          hc.2.2.2.1.trans he.2.2.2.1, hc.2.2.2.2.1.trans he.2.2.2.2.1,
          hc.2.2.2.2.2.1.trans he.2.2.2.2.2.1⟩
      | true =>
        cases hca : eng.createAnswerOk with
        | false =>
          have hc := sdpErrorCatch_frame eng
            { (ensureLocal eng s).st with peerConnection := some (applyRemote pc dsdp) }
            (ensureLocal eng s).out
            ((ensureLocal eng s).acts ++ [EngAct.engSetRemote, EngAct.engCreateAnswer])
          simp only [hpc, hsr, hca, Bool.false_eq_true, if_pos rfl, if_neg (by decide : ¬ (false = true))]
          exact ⟨hc.1.trans he.1, hc.2.1.trans he.2.1, hc.2.2.1.trans he.2.2.1,
            hc.2.2.2.1.trans he.2.2.2.1, hc.2.2.2.2.1.trans he.2.2.2.2.1,
            hc.2.2.2.2.2.1.trans he.2.2.2.2.2.1⟩
        | true =>
          cases hsl : eng.setLocalOk with
          | false =>
            have hc := sdpErrorCatch_frame eng
              { (ensureLocal eng s).st with peerConnection := some (applyRemote pc dsdp) }
              (ensureLocal eng s).out
              ((ensureLocal eng s).acts ++ [EngAct.engSetRemote, EngAct.engCreateAnswer,
                EngAct.engSetLocal ({ (ensureLocal eng s).st with
                  peerConnection := some (applyRemote pc dsdp) }).makingOffer])
            simp only [hpc, hsr, hca, hsl, Bool.false_eq_true, if_pos rfl, if_neg (by decide : ¬ (false = true))]
            exact ⟨hc.1.trans he.1, hc.2.1.trans he.2.1, hc.2.2.1.trans he.2.2.1,
              hc.2.2.2.1.trans he.2.2.2.1, hc.2.2.2.2.1.trans he.2.2.2.2.1,
              hc.2.2.2.2.2.1.trans he.2.2.2.2.2.1⟩
          | true =>
            simp only [hpc, hsr, hca, hsl, if_pos rfl]
            simp [he.1, he.2.1, he.2.2.1, he.2.2.2.1, he.2.2.2.2.1, he.2.2.2.2.2.1]

/-- Projection forms of the frame lemmas, convenient for `simp`. -/
theorem ensureLocal_out (eng : Engine) (s : Svc) : (ensureLocal eng s).out = [] :=
  (ensureLocal_frame eng s).2.2.2.2.2.2

/-- The output of `sdpErrorCatch` is exactly the output accumulated before
the failure. -/
theorem sdpErrorCatch_out (eng : Engine) (s : Svc) (o : List OutMsg) (a : List EngAct) :
    (sdpErrorCatch eng s o a).out = o :=
  (sdpErrorCatch_frame eng s o a).2.2.2.2.2.2

/-- Room id preserved by `ensureLocal`. -/
theorem ensureLocal_roomId (eng : Engine) (s : Svc) : (ensureLocal eng s).st.roomId = s.roomId :=
  (ensureLocal_frame eng s).2.2.2.2.1

/-- User id preserved by `ensureLocal`. -/
theorem ensureLocal_userId (eng : Engine) (s : Svc) : (ensureLocal eng s).st.userId = s.userId :=
  (ensureLocal_frame eng s).2.2.2.2.2.1

/-- The only envelope `offerProceed` can emit is the `answer` envelope,
addressed with the current room id and user id. -/
theorem offerProceed_out (eng : Engine) (s : Svc) (dsdp : RTCSdp) (m : OutMsg)
    (hm : m ∈ (offerProceed eng s dsdp).out) :
    m = OutMsg.answer s.roomId mkAnswerSdp s.userId := by
  unfold offerProceed at hm
  repeat' split at hm
  all_goals
    cases herr : (ensureLocal eng s).err <;>
    cases hpc : (ensureLocal eng s).st.peerConnection <;>
    simp_all [sdpErrorCatch_out, ensureLocal_out, ensureLocal_roomId, ensureLocal_userId]

/-- On the all-success oracle, `ensureLocal` does not throw and leaves a
connection in place whenever one was present. -/
theorem ensureLocal_allOk (s : Svc) (pc : PeerConnection) (hpc : s.peerConnection = some pc) :
    (ensureLocal allOk s).err = false ∧
    ∃ pc1, (ensureLocal allOk s).st.peerConnection = some pc1 := by
  unfold ensureLocal startLocalStream
  cases hls : s.localStream with
  | some ts => simp [hpc]
  | none => simp [allOk, hpc]

/-- Applying a remote description followed by a locally-applied answer
yields: that remote description stored, the answer as local description,
and a stable signaling state. -/
theorem applyChain_spec (pc : PeerConnection) (dsdp : RTCSdp) :
    (applyLocal (applyRemote pc dsdp) mkAnswerSdp).remoteDescription = some dsdp ∧
    (applyLocal (applyRemote pc dsdp) mkAnswerSdp).localDescription = some mkAnswerSdp ∧
    (applyLocal (applyRemote pc dsdp) mkAnswerSdp).signalingState = SignalingState.stable := by
  unfold applyLocal applyRemote
  repeat' split
  all_goals simp_all [mkAnswerSdp]

/-- Socket preserved by `ensureLocal`. -/
theorem ensureLocal_socket (eng : Engine) (s : Svc) :
    (ensureLocal eng s).st.socket = s.socket :=
  (ensureLocal_frame eng s).2.2.2.1

/-- On the all-success oracle, the proceed path of `handleOffer` applies
the remote offer, creates and applies an answer (ending stable), and emits
the `answer` envelope whenever the socket exists. -/
theorem offerProceed_allOk (s : Svc) (dsdp : RTCSdp) (pc : PeerConnection)
    (hpc : s.peerConnection = some pc) :
    ∃ pc2, (offerProceed allOk s dsdp).st.peerConnection = some pc2 ∧
      pc2.remoteDescription = some dsdp ∧
      pc2.localDescription = some mkAnswerSdp ∧
      pc2.signalingState = SignalingState.stable ∧
      (offerProceed allOk s dsdp).err = false ∧
      (offerProceed allOk s dsdp).out =
        (if s.socket.isSome then [OutMsg.answer s.roomId mkAnswerSdp s.userId] else []) := by
  obtain ⟨herr, pc1, hpc1⟩ := ensureLocal_allOk s pc hpc
  have h2 : allOk.setRemoteOk = true := rfl
  have h3 : allOk.createAnswerOk = true := rfl
  have h4 : allOk.setLocalOk = true := rfl
  refine ⟨applyLocal (applyRemote pc1 dsdp) mkAnswerSdp, ?_, (applyChain_spec pc1 dsdp).1,
    (applyChain_spec pc1 dsdp).2.1, (applyChain_spec pc1 dsdp).2.2, ?_, ?_⟩ <;>
  · unfold offerProceed
    simp only [herr, hpc1, h2, h3, h4, ensureLocal_out, ensureLocal_socket, ensureLocal_roomId,
      ensureLocal_userId]
    simp

/-- Claim C1: for an inbound offer with valid SDP (and the connection
present), a collision is detected exactly when `makingOffer` is true or
the signaling state is not stable at arrival.  If the local side is
impolite and a collision is detected, the offer is dropped entirely — no
description is touched, nothing is emitted, no engine call is made — and
`ignoreOffer` is set to true (first conjunct, any engine oracle).  In
every other case (polite, or no collision) the remote offer is applied as
remote description, an answer is created and applied as local description,
and the `answer` envelope is emitted (second conjunct, all-success
oracle). -/
theorem handleOffer_collision_policy (eng : Engine) (s : Svc) (d : SignalData)
    (pc : PeerConnection) (dsdp : RTCSdp)
    (hpc : s.peerConnection = some pc) (hsdp : d.sdp = some dsdp)
    (hv : truthyS dsdp.type = true) (hv2 : truthyS dsdp.sdp = true)
    (hsock : s.socket = some true) :
    (computePolite s.userId d.sender = false ∧
        (s.makingOffer = true ∨ pc.signalingState ≠ SignalingState.stable) →
      handleOffer eng s d = ⟨{ s with isPolite := false, ignoreOffer := true }, [], [], false⟩) ∧
    (computePolite s.userId d.sender = true ∨
        (s.makingOffer = false ∧ pc.signalingState = SignalingState.stable) →
      ∃ pc2, (handleOffer allOk s d).st.peerConnection = some pc2 ∧
        pc2.remoteDescription = some dsdp ∧
        pc2.localDescription = some mkAnswerSdp ∧
        pc2.signalingState = SignalingState.stable ∧
        (handleOffer allOk s d).st.ignoreOffer = false ∧
        (handleOffer allOk s d).out = [OutMsg.answer s.roomId mkAnswerSdp s.userId] ∧
        (handleOffer allOk s d).err = false) := by
  constructor
  · rintro ⟨hpol, hcoll⟩
    have hb : (s.makingOffer || !decide (pc.signalingState = SignalingState.stable)) = true := by
      rcases hcoll with h | h
      · simp [h]
      · simp [decide_eq_false h]
    unfold handleOffer
    simp [hpc, hsdp, hv, hv2, hpol, hb, hcoll]
  · intro hcase
    have hb2 : (!computePolite s.userId d.sender &&
        (s.makingOffer || !decide (pc.signalingState = SignalingState.stable))) = false := by
      rcases hcase with h | ⟨h1, h2⟩
      · simp [h]
      · simp [h1, h2]
    have hred : handleOffer allOk s d = offerProceed allOk
        { s with isPolite := computePolite s.userId d.sender, ignoreOffer := false } dsdp := by
      unfold handleOffer
      simp only [hpc, hsdp]
      simp [hv, hv2, hb2]
    obtain ⟨pc2, h1, h2, h3, h4, h5, h6⟩ := offerProceed_allOk
      { s with isPolite := computePolite s.userId d.sender, ignoreOffer := false } dsdp pc
      (by simpa using hpc)
    refine ⟨pc2, ?_, h2, h3, h4, ?_, ?_, ?_⟩
    · rw [hred]; exact h1
    · rw [hred, (offerProceed_frame allOk _ dsdp).1]
    · rw [hred, h6]; simp [hsock]
    · rw [hred]; exact h5

/-- Claim C1, witness: `bob` receives a valid offer from `alice`; `bob` is
polite, so even in any state the offer is answered — here the answer
envelope is emitted and `ignoreOffer` stays false. -/
theorem handleOffer_collision_policy_witness :
    (handleOffer allOk svcBase dOfferAlice).out = [OutMsg.answer "room1" mkAnswerSdp "bob"] ∧
    (handleOffer allOk svcBase dOfferAlice).st.ignoreOffer = false := by
  have h := (handleOffer_collision_policy allOk svcBase dOfferAlice
    ⟨SignalingState.stable, none, none,
      [⟨TrackKind.audio, some ⟨TrackKind.audio, 0⟩⟩, ⟨TrackKind.video, some ⟨TrackKind.video, 1⟩⟩], []⟩
    ⟨some "offer", some "v=0"⟩ rfl rfl (by decide) (by decide) rfl).2 (Or.inl (by decide))
  obtain ⟨pc2, h1, h2, h3, h4, h5, h6, h7⟩ := h
  exact ⟨h6, h5⟩

/-- Claim C5: recovery after a description-apply failure closes the peer
connection, reinitializes it re-allocating the two fixed audio/video
slots (and the data channel), and — local media having been captured —
reattaches the captured audio and video tracks into the new slots,
landing in exactly the same slot assignment as the initial
`replaceTrack`-based attach: exactly one audio track and one video track
attached, never duplicated, and the local stream itself not re-captured. -/
theorem recoverFromSDPError_reattach (s : Svc) (pc0 : PeerConnection) (ta tv : Track)
    (hpc : s.peerConnection = some pc0) (hls : s.localStream = some [ta, tv])
    (hka : ta.kind = TrackKind.audio) (hkv : tv.kind = TrackKind.video) :
    ∃ pc2, (recoverFromSDPError s).st.peerConnection = some pc2 ∧
      pc2.transceivers = [⟨TrackKind.audio, some ta⟩, ⟨TrackKind.video, some tv⟩] ∧
      attachedCount pc2 TrackKind.audio = 1 ∧
      attachedCount pc2 TrackKind.video = 1 ∧
      pc2.transceivers = initialAttachTransceivers ta tv ∧
      (recoverFromSDPError s).acts =
        [EngAct.closePC, EngAct.newPC, EngAct.addTransceiverA, EngAct.addTransceiverV,
         EngAct.createDataChannel, EngAct.addTrackCall ta, EngAct.addTrackCall tv] ∧
      (recoverFromSDPError s).st.localStream = some [ta, tv] := by
  cases ta with
  | mk ka ia =>
  cases tv with
  | mk kv iv =>
  simp only [Track.kind] at hka hkv
  subst hka
  subst hkv
  have hrec : recoverFromSDPError s =
      Res.mk
        { s with
            peerConnection := some (PeerConnection.mk SignalingState.stable none none
              [Transceiver.mk TrackKind.audio (some (Track.mk TrackKind.audio ia)),
               Transceiver.mk TrackKind.video (some (Track.mk TrackKind.video iv))] [])
            audioTransceiver := some 0
            videoTransceiver := some 1
            dataChannel := some "connecting" }
        []
        [EngAct.closePC, EngAct.newPC, EngAct.addTransceiverA, EngAct.addTransceiverV,
         EngAct.createDataChannel, EngAct.addTrackCall (Track.mk TrackKind.audio ia),
         EngAct.addTrackCall (Track.mk TrackKind.video iv)]
        false := by
    unfold recoverFromSDPError initializePeerConnection
    simp [hpc, hls, pcAddTrack, reuseSlot]
  refine ⟨PeerConnection.mk SignalingState.stable none none
      [Transceiver.mk TrackKind.audio (some (Track.mk TrackKind.audio ia)),
       Transceiver.mk TrackKind.video (some (Track.mk TrackKind.video iv))] [],
    by rw [hrec], rfl, by simp [attachedCount], by simp [attachedCount],
    by simp [initialAttachTransceivers, initializePeerConnection, emptySvc, attachTrack,
      replaceSenderAt, setSenderAt],
    by rw [hrec], by rw [hrec]; exact hls⟩

/-- Claim C5, witness: recovering the concrete initialized session closes
and rebuilds the connection, re-creating the two slots and re-adding the
two captured tracks once each. -/
theorem recoverFromSDPError_reattach_witness :
    (recoverFromSDPError svcBase).acts =
      [EngAct.closePC, EngAct.newPC, EngAct.addTransceiverA, EngAct.addTransceiverV,
       EngAct.createDataChannel, EngAct.addTrackCall ⟨TrackKind.audio, 0⟩,
       EngAct.addTrackCall ⟨TrackKind.video, 1⟩] := by
  obtain ⟨pc2, h1, h2, h3, h4, h5, h6, h7⟩ :=
    recoverFromSDPError_reattach svcBase _ ⟨TrackKind.audio, 0⟩ ⟨TrackKind.video, 1⟩
      rfl rfl rfl rfl
  exact h6

/-- The `makingOffer` preserved by `ensureLocal`. -/
theorem ensureLocal_makingOffer (eng : Engine) (s : Svc) :
    (ensureLocal eng s).st.makingOffer = s.makingOffer :=
  (ensureLocal_frame eng s).2.1

/-- Claim C6, amended: in the `negotiationneeded` handler — the
perfect-negotiation offer path — every engine call observes
`makingOffer = true` and the flag is cleared afterwards regardless of
which engine call fails (the `finally`), so no failed attempt leaves it
permanently true.  The manual `createOffer` path, by contrast, never
touches `makingOffer` at all: its final value equals its initial value. -/
theorem makingOffer_scoped_to_negotiationneeded :
    (∀ eng s, (onNegotiationNeeded eng s).st.makingOffer = false) ∧
    (∀ eng s b, (EngAct.engCreateOffer b ∈ (onNegotiationNeeded eng s).acts ∨
        EngAct.engSetLocal b ∈ (onNegotiationNeeded eng s).acts) → b = true) ∧
    (∀ eng s, (createOffer eng s).st.makingOffer = s.makingOffer) := by
  refine ⟨?_, ?_, ?_⟩
  · intro eng s
    unfold onNegotiationNeeded
    repeat' split
    all_goals simp
  · intro eng s b hb
    unfold onNegotiationNeeded at hb
    repeat' split at hb
    all_goals rcases hb with hb | hb <;> simp_all
  · intro eng s
    unfold createOffer
    repeat' split
    all_goals
      cases herr : (ensureLocal eng s).err <;>
      cases hpcl : (ensureLocal eng s).st.peerConnection <;>
      simp_all [ensureLocal_makingOffer]

/-- Claim C6, witness for the amended theorem: after a `negotiationneeded`
run on the concrete state, the flag is cleared, and the manual
`createOffer` left the concrete state's flag untouched. -/
theorem makingOffer_scoped_witness :
    (onNegotiationNeeded allOk svcBase).st.makingOffer = false ∧
    (createOffer allOk svcBase).st.makingOffer = svcBase.makingOffer := by
  exact ⟨makingOffer_scoped_to_negotiationneeded.1 allOk svcBase,
    makingOffer_scoped_to_negotiationneeded.2.2 allOk svcBase⟩

/-- Claim C6, counterexample.  The claim says `makingOffer` is held true
whenever an outbound offer is being constructed; but the manual
`createOffer` path (`src/unnamed/part_001` lines 466-500, reachable from
the UI's manual-call button) constructs and emits an outbound offer while
`makingOffer` is false, and never sets it. -/
theorem createOffer_ignores_makingOffer :
    svcBase.makingOffer = false ∧
    (createOffer allOk svcBase).acts =
      [EngAct.engCreateOffer false, EngAct.engSetLocal false] ∧
    (createOffer allOk svcBase).out = [OutMsg.offer "room1" mkOfferSdp "bob"] := by
  decide

/-- Claim C7, amended: each call to `sendChatMessage` uses exactly one
transport, chosen at send time by current readiness — the data channel
exactly when it reports itself `open`, otherwise the signaling socket —
never both.  The data-channel payload is a full `ChatMessage`; the socket
fallback payload is `{ roomId, sender, message }`. -/
theorem sendChatMessage_single_path (s : Svc) (m : String) (t : Nat)
    (hsock : s.socket.isSome = true) :
    (sendChatMessage s m t).out.length = 1 ∧
    (s.dataChannel = some "open" →
      (sendChatMessage s m t).out = [OutMsg.chatData ⟨s.userId, m, t, s.userId⟩]) ∧
    (s.dataChannel ≠ some "open" →
      (sendChatMessage s m t).out = [OutMsg.chatSocket s.roomId s.userId m]) := by
  unfold sendChatMessage
  cases hdc : s.dataChannel with
  | none => simp [hsock, hdc]
  | some rs =>
    by_cases hrs : rs = "open"
    · subst hrs
      simp [hsock]
    · simp [hsock, hrs, hdc]

/-- Claim C7, witness: on the concrete state whose data channel is still
`connecting`, exactly the socket fallback envelope is emitted. -/
theorem sendChatMessage_single_path_witness :
    (sendChatMessage svcBase "hi" 7).out = [OutMsg.chatSocket "room1" "bob" "hi"] := by
  exact (sendChatMessage_single_path svcBase "hi" 7 rfl).2.2 (by decide)

/-- Claim C7, counterexample.  The claim says the payload sent via either
path carries the same `ChatMessage` shape; but the socket fallback sends
`{ roomId, sender, message }` — with no `time` and no `senderId` field —
while the data-channel path sends the full
`{ sender, message, time, senderId }` record: the shapes differ. -/
theorem sendChatMessage_fallback_shape_differs :
    (sendChatMessage svcBase "hi" 7).out = [OutMsg.chatSocket "room1" "bob" "hi"] ∧
    chatPayloadIsChatMessage (OutMsg.chatSocket "room1" "bob" "hi") = false ∧
    chatPayloadIsChatMessage (OutMsg.chatData ⟨"bob", "hi", 7, "bob"⟩) = true := by
  decide

/-- Every envelope `handleOffer` emits is the `answer` envelope addressed
with the current room id and user id. -/
theorem handleOffer_out (eng : Engine) (s : Svc) (d : SignalData) (m : OutMsg)
    (hm : m ∈ (handleOffer eng s d).out) :
    m = OutMsg.answer s.roomId mkAnswerSdp s.userId := by
  unfold handleOffer at hm
  cases hpc : s.peerConnection with
  | none => simp [hpc] at hm
  | some pc =>
    simp only [hpc] at hm
    cases hsdp : d.sdp with
    | none => simp [hsdp] at hm
    | some dsdp =>
      simp only [hsdp] at hm
      by_cases hv : (truthyS dsdp.type && truthyS dsdp.sdp) = true
      · simp only [hv, if_pos rfl] at hm
        by_cases hign : (!computePolite s.userId d.sender &&
            (s.makingOffer || decide (pc.signalingState ≠ SignalingState.stable))) = true
        · simp only [hign, if_pos rfl] at hm
          simp at hm
        · simp only [Bool.not_eq_true] at hign
          simp only [hign, if_neg (by decide : ¬ (false = true))] at hm
          have h := offerProceed_out eng _ _ m hm
          simpa using h
      · simp only [Bool.not_eq_true] at hv
        simp [hv] at hm

/-- The `handleAnswer` emits nothing. -/
theorem handleAnswer_out_nil (eng : Engine) (s : Svc) (d : SignalData) :
    (handleAnswer eng s d).out = [] := by
  unfold handleAnswer
  repeat' split
  all_goals simp [sdpErrorCatch_out]

/-- The `handleIceCandidate` emits nothing. -/
theorem handleIceCandidate_out_nil (eng : Engine) (s : Svc) (c : Option Candidate) :
    (handleIceCandidate eng s c).out = [] := by
  unfold handleIceCandidate
  repeat' split
  all_goals simp

/-- Every envelope the `negotiationneeded` handler emits is the `offer`
envelope addressed with the current room id and user id. -/
theorem onNegotiationNeeded_out (eng : Engine) (s : Svc) (m : OutMsg)
    (hm : m ∈ (onNegotiationNeeded eng s).out) :
    m = OutMsg.offer s.roomId mkOfferSdp s.userId := by
  unfold onNegotiationNeeded at hm
  repeat' split at hm
  all_goals simp_all

/-- Every envelope the manual `createOffer` emits is the `offer` envelope
addressed with the current room id and user id. -/
theorem createOffer_out (eng : Engine) (s : Svc) (m : OutMsg)
    (hm : m ∈ (createOffer eng s).out) :
    m = OutMsg.offer s.roomId mkOfferSdp s.userId := by
  unfold createOffer at hm
  repeat' split at hm
  all_goals
    cases herr : (ensureLocal eng s).err <;>
    cases hpcl : (ensureLocal eng s).st.peerConnection <;>
    simp_all [ensureLocal_out, ensureLocal_roomId, ensureLocal_userId]

/-- Claim C8, amended: every envelope the orchestrator emits over the
signaling socket — in reaction to any event: connect, inbound offer,
negotiation-needed, manual offer, gathered candidate, chat send, or the
call-control commands — carries both the current room id and the current
user id as `sender`, with the single exception of `join`, whose wire
payload is the bare room id and carries no `sender` field. -/
theorem dispatch_envelopes_addressing (eng : Engine) (s : Svc) (ev : Ev) (m : OutMsg)
    (hm : m ∈ (dispatch eng s ev).out) (hvs : viaSocket m = true) :
    m = OutMsg.join s.roomId ∨
    (msgRoomId m = some s.roomId ∧ msgSender m = some s.userId) := by
  cases ev with
  | offerMsg d =>
    rw [handleOffer_out eng s d m hm]
    exact Or.inr ⟨rfl, rfl⟩
  | answerMsg d =>
    rw [show dispatch eng s (Ev.answerMsg d) = handleAnswer eng s d from rfl,
      handleAnswer_out_nil] at hm
    simp at hm
  | iceMsg c =>
    rw [show dispatch eng s (Ev.iceMsg c) = handleIceCandidate eng s c from rfl,
      handleIceCandidate_out_nil] at hm
    simp at hm
  | negotiationNeeded =>
    rw [onNegotiationNeeded_out eng s m hm]
    exact Or.inr ⟨rfl, rfl⟩
  | manualCreateOffer =>
    rw [createOffer_out eng s m hm]
    exact Or.inr ⟨rfl, rfl⟩
  | socketConnect =>
    simp only [dispatch] at hm
    unfold onSocketConnect at hm
    simp at hm
    exact Or.inl hm
  | localIce c =>
    simp only [dispatch] at hm
    unfold onIceCandidateLocal at hm
    repeat' split at hm
    all_goals simp_all [msgRoomId, msgSender]
  | rosterOrChatIn =>
    simp only [dispatch] at hm
    unfold handleRosterOrChat at hm
    simp at hm
  | sendChat msg now =>
    simp only [dispatch] at hm
    unfold sendChatMessage at hm
    repeat' split at hm
    all_goals simp_all [viaSocket, msgRoomId, msgSender]
  | callUserCmd t =>
    simp only [dispatch] at hm
    unfold makeCall at hm
    repeat' split at hm
    all_goals simp_all [msgRoomId, msgSender]
  | acceptCallCmd t =>
    simp only [dispatch] at hm
    unfold acceptCall at hm
    repeat' split at hm
    all_goals simp_all [msgRoomId, msgSender]
  | rejectCallCmd t =>
    simp only [dispatch] at hm
    unfold rejectCall at hm
    repeat' split at hm
    all_goals simp_all [msgRoomId, msgSender]
  | endCallEvt =>
    simp only [dispatch] at hm
    unfold endCallCmd at hm
    repeat' split at hm
    all_goals simp_all [msgRoomId, msgSender]

/-- Claim C8, witness for the amended theorem: the `end-call` envelope of
a concrete run carries both the room id and the sender. -/
theorem dispatch_envelopes_addressing_witness :
    msgRoomId (OutMsg.endCall "room1" "bob") = some "room1" ∧
    msgSender (OutMsg.endCall "room1" "bob") = some "bob" := by
  have h := dispatch_envelopes_addressing allOk svcBase Ev.endCallEvt
    (OutMsg.endCall "room1" "bob") (by decide) (by decide)
  exact h.resolve_left (by decide)

/-- Claim C8, counterexample.  The claim says every emitted envelope —
including the `join` emitted on connect — carries `roomId` and `sender`;
but `initialize`'s connect callback emits `emit('join', this.roomId)`: a
bare room id payload with no `sender` field. -/
theorem join_envelope_lacks_sender :
    (initializeService allOk emptySvc "room1" "bob" 0).out = [OutMsg.join "room1"] ∧
    viaSocket (OutMsg.join "room1") = true ∧
    msgSender (OutMsg.join "room1") = none := by
  decide

/-- The `ignoreOffer` preserved by `sdpErrorCatch`. -/
theorem sdpErrorCatch_ignoreOffer (eng : Engine) (s : Svc) (o : List OutMsg) (a : List EngAct) :
    (sdpErrorCatch eng s o a).st.ignoreOffer = s.ignoreOffer :=
  (sdpErrorCatch_frame eng s o a).1

/-- The `ignoreOffer` preserved by `ensureLocal`. -/
theorem ensureLocal_ignoreOffer (eng : Engine) (s : Svc) :
    (ensureLocal eng s).st.ignoreOffer = s.ignoreOffer :=
  (ensureLocal_frame eng s).1

/-- The `handleAnswer` never writes `ignoreOffer`. -/
theorem handleAnswer_ignoreOffer (eng : Engine) (s : Svc) (d : SignalData) :
    (handleAnswer eng s d).st.ignoreOffer = s.ignoreOffer := by
  unfold handleAnswer
  repeat' split
  all_goals simp [sdpErrorCatch_ignoreOffer]

/-- The `handleIceCandidate` never writes `ignoreOffer`. -/
theorem handleIceCandidate_ignoreOffer (eng : Engine) (s : Svc) (c : Option Candidate) :
    (handleIceCandidate eng s c).st.ignoreOffer = s.ignoreOffer := by
  unfold handleIceCandidate
  repeat' split
  all_goals simp

/-- The `negotiationneeded` handler never writes `ignoreOffer`. -/
theorem onNegotiationNeeded_ignoreOffer (eng : Engine) (s : Svc) :
    (onNegotiationNeeded eng s).st.ignoreOffer = s.ignoreOffer := by
  unfold onNegotiationNeeded
  repeat' split
  all_goals simp

/-- The manual `createOffer` never writes `ignoreOffer`. -/
theorem createOffer_ignoreOffer (eng : Engine) (s : Svc) :
    (createOffer eng s).st.ignoreOffer = s.ignoreOffer := by
  unfold createOffer
  repeat' split
  all_goals
    cases herr : (ensureLocal eng s).err <;>
    cases hpcl : (ensureLocal eng s).st.peerConnection <;>
    simp_all [ensureLocal_ignoreOffer]

/-- The `sendChatMessage` leaves the service state untouched. -/
theorem sendChatMessage_st (s : Svc) (m : String) (t : Nat) :
    (sendChatMessage s m t).st = s := by
  unfold sendChatMessage
  repeat' split
  all_goals rfl

/-- The `makeCall` leaves the service state untouched. -/
theorem makeCall_st (s : Svc) (t : String) : (makeCall s t).st = s := by
  unfold makeCall
  split <;> rfl

/-- The `acceptCall` leaves the service state untouched. -/
theorem acceptCall_st (s : Svc) (t : String) : (acceptCall s t).st = s := by
  unfold acceptCall
  split <;> rfl

/-- The `rejectCall` leaves the service state untouched. -/
theorem rejectCall_st (s : Svc) (t : String) : (rejectCall s t).st = s := by
  unfold rejectCall
  split <;> rfl

/-- The `endCall` leaves the service state untouched. -/
theorem endCallCmd_st (s : Svc) : (endCallCmd s).st = s := by
  unfold endCallCmd
  split <;> rfl

/-- The `onicecandidate` callback leaves the service state untouched. -/
theorem onIceCandidateLocal_st (s : Svc) (c : Option Candidate) :
    (onIceCandidateLocal s c).st = s := by
  unfold onIceCandidateLocal
  repeat' split
  all_goals rfl

/-- Claim C3: (1) over every event the orchestrator dispatches and every
engine oracle, `ignoreOffer` can only become true while processing an
inbound offer that is valid, arrives with a connection present, and is
classified as a collision with the local side impolite; (2) while
`ignoreOffer` is true, every inbound answer is dropped — state unchanged,
nothing emitted, no engine call, no remote description applied; (3)
likewise every inbound ice-candidate is dropped — no candidate added; and
(4) on the all-success oracle, the only event that clears `ignoreOffer` is
an inbound offer whose processing applies its SDP as the remote
description. -/
theorem ignoreOffer_invariant :
    (∀ eng s ev, (dispatch eng s ev).st.ignoreOffer = true →
      s.ignoreOffer = true ∨ collisionOfferEvent s ev) ∧
    (∀ eng s d, s.ignoreOffer = true → handleAnswer eng s d = ⟨s, [], [], false⟩) ∧
    (∀ eng s c, s.ignoreOffer = true → handleIceCandidate eng s c = ⟨s, [], [], false⟩) ∧
    (∀ s ev, s.ignoreOffer = true → (dispatch allOk s ev).st.ignoreOffer = false →
      ∃ d dsdp pc2, ev = Ev.offerMsg d ∧ d.sdp = some dsdp ∧
        (dispatch allOk s ev).st.peerConnection = some pc2 ∧
        pc2.remoteDescription = some dsdp) := by
  have hoff : ∀ eng s d, (handleOffer eng s d).st.ignoreOffer = true →
      s.ignoreOffer = true ∨ collisionOfferEvent s (Ev.offerMsg d) := by
    intro eng s d h
    unfold handleOffer at h
    cases hpc : s.peerConnection with
    | none => simp only [hpc] at h; exact Or.inl h
    | some pc =>
      simp only [hpc] at h
      cases hsdp : d.sdp with
      | none => simp only [hsdp] at h; exact Or.inl h
      | some dsdp =>
        simp only [hsdp] at h
        by_cases hv : (truthyS dsdp.type && truthyS dsdp.sdp) = true
        · simp only [hv, if_pos rfl] at h
          obtain ⟨hva, hvb⟩ : truthyS dsdp.type = true ∧ truthyS dsdp.sdp = true := by
            simpa using hv
          by_cases hign : (!computePolite s.userId d.sender &&
              (s.makingOffer || decide (pc.signalingState ≠ SignalingState.stable))) = true
          · obtain ⟨h1, h2⟩ : computePolite s.userId d.sender = false ∧
                (s.makingOffer = true ∨ ¬pc.signalingState = SignalingState.stable) := by
              simpa using hign
            exact Or.inr ⟨d, pc, dsdp, rfl, hpc, hsdp, hva, hvb, h1, h2⟩
          · simp only [Bool.not_eq_true] at hign
            simp only [hign, if_neg (by decide : ¬ (false = true))] at h
            simp [offerProceed_frame] at h
        · simp only [Bool.not_eq_true] at hv
          simp only [hv, if_neg (by decide : ¬ (false = true))] at h
          exact Or.inl h
  refine ⟨?_, ?_, ?_, ?_⟩
  · intro eng s ev h
    cases ev with
    | socketConnect => exact Or.inl (by simpa [dispatch, onSocketConnect] using h)
    | offerMsg d => exact hoff eng s d h
    | answerMsg d => exact Or.inl (by rw [← handleAnswer_ignoreOffer eng s d]; exact h)
    | iceMsg c => exact Or.inl (by rw [← handleIceCandidate_ignoreOffer eng s c]; exact h)
    | negotiationNeeded => exact Or.inl (by rw [← onNegotiationNeeded_ignoreOffer eng s]; exact h)
    | manualCreateOffer => exact Or.inl (by rw [← createOffer_ignoreOffer eng s]; exact h)
    | localIce c => exact Or.inl (by rw [show dispatch eng s (Ev.localIce c) =
        onIceCandidateLocal s c from rfl, onIceCandidateLocal_st] at h; exact h)
    | rosterOrChatIn => exact Or.inl h
    | sendChat msg now => exact Or.inl (by rw [show dispatch eng s (Ev.sendChat msg now) =
        sendChatMessage s msg now from rfl, sendChatMessage_st] at h; exact h)
    | callUserCmd t => exact Or.inl (by rw [show dispatch eng s (Ev.callUserCmd t) =
        makeCall s t from rfl, makeCall_st] at h; exact h)
    | acceptCallCmd t => exact Or.inl (by rw [show dispatch eng s (Ev.acceptCallCmd t) =
        acceptCall s t from rfl, acceptCall_st] at h; exact h)
    | rejectCallCmd t => exact Or.inl (by rw [show dispatch eng s (Ev.rejectCallCmd t) =
        rejectCall s t from rfl, rejectCall_st] at h; exact h)
    | endCallEvt => exact Or.inl (by rw [show dispatch eng s Ev.endCallEvt =
        endCallCmd s from rfl, endCallCmd_st] at h; exact h)
  · intro eng s d h
    unfold handleAnswer
    repeat' split
    all_goals simp_all
  · intro eng s c h
    unfold handleIceCandidate
    repeat' split
    all_goals simp_all
  · intro s ev hig h
    cases ev with
    | socketConnect => simp [dispatch, onSocketConnect, hig] at h
    | answerMsg d => rw [show dispatch allOk s (Ev.answerMsg d) = handleAnswer allOk s d from rfl,
        handleAnswer_ignoreOffer, hig] at h; exact absurd h (by decide)
    | iceMsg c => rw [show dispatch allOk s (Ev.iceMsg c) = handleIceCandidate allOk s c from rfl,
        handleIceCandidate_ignoreOffer, hig] at h; exact absurd h (by decide)
    | negotiationNeeded =>
      rw [show dispatch allOk s Ev.negotiationNeeded = onNegotiationNeeded allOk s from rfl,
        onNegotiationNeeded_ignoreOffer, hig] at h
      exact absurd h (by decide)
    | manualCreateOffer =>
      rw [show dispatch allOk s Ev.manualCreateOffer = createOffer allOk s from rfl,
        createOffer_ignoreOffer, hig] at h
      exact absurd h (by decide)
    | localIce c =>
      rw [show dispatch allOk s (Ev.localIce c) = onIceCandidateLocal s c from rfl,
        onIceCandidateLocal_st, hig] at h
      exact absurd h (by decide)
    | rosterOrChatIn =>
      simp only [dispatch, handleRosterOrChat] at h
      rw [hig] at h
      exact absurd h (by decide)
    | sendChat msg now =>
      rw [show dispatch allOk s (Ev.sendChat msg now) = sendChatMessage s msg now from rfl,
        sendChatMessage_st, hig] at h
      exact absurd h (by decide)
    | callUserCmd t =>
      rw [show dispatch allOk s (Ev.callUserCmd t) = makeCall s t from rfl,
        makeCall_st, hig] at h
      exact absurd h (by decide)
    | acceptCallCmd t =>
      rw [show dispatch allOk s (Ev.acceptCallCmd t) = acceptCall s t from rfl,
        acceptCall_st, hig] at h
      exact absurd h (by decide)
    | rejectCallCmd t =>
      rw [show dispatch allOk s (Ev.rejectCallCmd t) = rejectCall s t from rfl,
        rejectCall_st, hig] at h
      exact absurd h (by decide)
    | endCallEvt =>
      rw [show dispatch allOk s Ev.endCallEvt = endCallCmd s from rfl,
        endCallCmd_st, hig] at h
      exact absurd h (by decide)
    | offerMsg d =>
      rw [show dispatch allOk s (Ev.offerMsg d) = handleOffer allOk s d from rfl] at h ⊢
      unfold handleOffer at h
      cases hpc : s.peerConnection with
      | none => simp only [hpc] at h; rw [hig] at h; exact absurd h (by decide)
      | some pc =>
        simp only [hpc] at h
        cases hsdp : d.sdp with
        | none => simp only [hsdp] at h; rw [hig] at h; exact absurd h (by decide)
        | some dsdp =>
          simp only [hsdp] at h
          by_cases hv : (truthyS dsdp.type && truthyS dsdp.sdp) = true
          · simp only [hv, if_pos rfl] at h
            obtain ⟨hva, hvb⟩ : truthyS dsdp.type = true ∧ truthyS dsdp.sdp = true := by
              simpa using hv
            by_cases hign : (!computePolite s.userId d.sender &&
                (s.makingOffer || decide (pc.signalingState ≠ SignalingState.stable))) = true
            · simp only [hign, if_pos rfl] at h
              simp at h
            · simp only [Bool.not_eq_true] at hign
              have hb2 : (!computePolite s.userId d.sender &&
                  (s.makingOffer || !decide (pc.signalingState = SignalingState.stable))) = false := by
                simpa using hign
              have hred : handleOffer allOk s d = offerProceed allOk
                  { s with isPolite := computePolite s.userId d.sender, ignoreOffer := false } dsdp := by
                unfold handleOffer
                simp only [hpc, hsdp]
                simp [hva, hvb, hb2]
              obtain ⟨pc2, h1, h2, h3, h4, h5, h6⟩ := offerProceed_allOk
                { s with isPolite := computePolite s.userId d.sender, ignoreOffer := false } dsdp pc
                (by simpa using hpc)
              refine ⟨d, dsdp, pc2, rfl, hsdp, ?_, h2⟩
              rw [hred]
              exact h1
          · simp only [Bool.not_eq_true] at hv
            simp only [hv, if_neg (by decide : ¬ (false = true))] at h
            rw [hig] at h
            exact absurd h (by decide)

/-- Claim C3, witness: with `ignoreOffer` set on the concrete state, a
concrete inbound answer and a concrete inbound candidate are both dropped
with the state unchanged. -/
theorem ignoreOffer_invariant_witness :
    handleAnswer allOk { svcBase with ignoreOffer := true } dOfferAlice =
      ⟨{ svcBase with ignoreOffer := true }, [], [], false⟩ ∧
    handleIceCandidate allOk { svcBase with ignoreOffer := true } (some ⟨5⟩) =
      ⟨{ svcBase with ignoreOffer := true }, [], [], false⟩ := by
  exact ⟨ignoreOffer_invariant.2.1 allOk _ dOfferAlice rfl,
    ignoreOffer_invariant.2.2.1 allOk _ (some ⟨5⟩) rfl⟩
